import Mathlib

/-!
Verification of the TradeWise stock-analysis dashboard core
(window filtering, indicator computation, alert evaluation, sentiment
scoring) against its natural-language specification.

The embedding follows `src/utils/plotly_figure.py` and
`src/StockAnalysis.py`.  Numeric indicator kernels (`pandas_ta` rsi /
sma / macd / ema and `dateutil.relativedelta` calendar arithmetic) are
third-party library calls; their behaviour is modelled from the
specification, as noted on each definition.
-/

/-- Calendar date, mirroring the `datetime` values held in the
dataframe Date column: year, month (1-12), day (1-31). -/
structure Date where
  y : Int
  m : Int
  d : Int
deriving DecidableEq, Repr

/-- Chronological strict order on dates, as `datetime` comparison:
lexicographic on (year, month, day). -/
def dlt (a b : Date) : Bool :=
  a.y < b.y || (a.y == b.y && (a.m < b.m || (a.m == b.m && a.d < b.d)))

/-- Chronological order (non-strict) on dates. -/
def dle (a b : Date) : Bool :=
  a.y < b.y || (a.y == b.y && (a.m < b.m || (a.m == b.m && a.d ≤ b.d)))

/-- Gregorian leap-year test. -/
def isLeap (y : Int) : Bool :=
  (y % 4 == 0 && y % 100 != 0) || y % 400 == 0

/-- Number of days in a month of a given year. -/
def daysInMonth (y m : Int) : Int :=
  if m = 2 then (if isLeap y then 29 else 28)
  else if m = 4 ∨ m = 6 ∨ m = 9 ∨ m = 11 then 30
  else 31

/-- The calendar day before a date. -/
def prevDay (a : Date) : Date :=
  if 1 < a.d then ⟨a.y, a.m, a.d - 1⟩
  else if 1 < a.m then ⟨a.y, a.m - 1, daysInMonth a.y (a.m - 1)⟩
  else ⟨a.y - 1, 12, 31⟩

/-- Modelled from the spec: `dateutil.relativedelta(days=n)` subtraction
(not under src/): shift a date back by `n` calendar days. -/
def subDays (a : Date) (n : Nat) : Date :=
  Nat.rec a (fun _ acc => prevDay acc) n

/-- Modelled from the spec: `dateutil.relativedelta(months=k)`
subtraction (not under src/): move back `k` calendar months, clamping
the day to the length of the target month. -/
def subMonths (a : Date) (k : Nat) : Date :=
  let total : Int := a.y * 12 + (a.m - 1) - k
  let y2 : Int := total.fdiv 12
  let m2 : Int := total.emod 12 + 1
  ⟨y2, m2, min a.d (daysInMonth y2 m2)⟩

/-- Modelled from the spec: `dateutil.relativedelta(years=k)`
subtraction (not under src/): move back `k` calendar years, clamping
the day (Feb 29 becomes Feb 28 in a non-leap year). -/
def subYears (a : Date) (k : Nat) : Date :=
  ⟨a.y - k, a.m, min a.d (daysInMonth (a.y - k) a.m)⟩

/-- One OHLCV bar of a PriceSeries, a row of the price dataframe. -/
structure Bar where
  date : Date
  open_ : ℚ
  high : ℚ
  low : ℚ
  close : ℚ
  volume : ℕ
deriving DecidableEq, Repr

/-- The PriceSeries invariant from the data model: dates strictly
increasing along the series. -/
def datesStrictMono (df : List Bar) : Prop :=
  List.Pairwise (fun a b => dlt a.date b.date = true) df

/-- The cutoff date computed inside `filter_data`
(src/utils/plotly_figure.py:90-105): branches on the window tag;
`latest` is the date of the last row, the `max`/empty/fall-through
branches use the date of the first row. -/
def filterCutoff (first latest : Date) (num_period : String) : Date :=
  if num_period = "1mo" then subMonths latest 1
  else if num_period = "5d" then subDays latest 5
  else if num_period = "6mo" then subMonths latest 6
  else if num_period = "1y" then subYears latest 1
  else if num_period = "5y" then subYears latest 5
  else if num_period = "ytd" then ⟨latest.y, 1, 1⟩
  else if num_period = "max" ∨ num_period = "" then first
  else first

/-- Embedding of `filter_data` (src/utils/plotly_figure.py:84-106):
compute the cutoff from the window tag, then keep the rows whose date
is strictly greater than the cutoff (`df[df.Date > cutoff]`). -/
def filter_data (df : List Bar) (num_period : String) : List Bar :=
  match df with
  | [] => []
  | b0 :: rest =>
    let latest := ((b0 :: rest).getLast (List.cons_ne_nil b0 rest)).date
    let cutoff := filterCutoff b0.date latest num_period
    (b0 :: rest).filter (fun b => dlt cutoff b.date)

/-- The cutoff rule as the specification states it (section 4.1): 5-day
is anchor minus 5 days; 1-month, 6-month anchor minus that many
calendar months; 1-year, 5-year anchor minus that many calendar years;
year-to-date is January 1 of the anchor year; anything else the
earliest date in the series.  The anchor is the latest date in the
series. -/
def cutoffSpec (df : List Bar) (w : String) : Date :=
  match df with
  | [] => ⟨0, 1, 1⟩
  | b0 :: rest =>
    let anchor := ((b0 :: rest).getLast (List.cons_ne_nil b0 rest)).date
    if w = "5d" then subDays anchor 5
    else if w = "1mo" then subMonths anchor 1
    else if w = "6mo" then subMonths anchor 6
    else if w = "1y" then subYears anchor 1
    else if w = "5y" then subYears anchor 5
    else if w = "ytd" then ⟨anchor.y, 1, 1⟩
    else b0.date

/-- Running Wilder smoothing: each new average is
((length - 1) * previous + current) / length. -/
def wilderStream (L a : ℚ) : List ℚ → List ℚ
  | [] => []
  | x :: xs => ((L - 1) * a + x) / L :: wilderStream L (((L - 1) * a + x) / L) xs

/-- RSI point value: 100 when the average loss is zero, otherwise
100 - 100 / (1 + avg_gain / avg_loss). -/
def rsiVal (g l : ℚ) : ℚ :=
  if l = 0 then 100 else 100 - 100 / (1 + g / l)

/-- Modelled from the spec: `pandas_ta.rsi` (not under src/).  Wilder
relative strength index over the Close column: average gain and loss
are smoothed averages of up-moves and down-moves over the lookback,
RSI = 100 - 100/(1 + avg_gain/avg_loss) with RSI = 100 when the
average loss is zero, and the first `L` positions undefined. -/
def pta_rsi (L : ℕ) (closes : List ℚ) : List (Option ℚ) :=
  if closes.length ≤ L ∨ L = 0 then List.replicate closes.length none
  else
    let diffs := List.zipWith (fun b a => b - a) closes.tail closes
    let gains := diffs.map (fun d => max d 0)
    let losses := diffs.map (fun d => max (-d) 0)
    let g0 := (gains.take L).sum / L
    let l0 := (losses.take L).sum / L
    let gs := g0 :: wilderStream L g0 (gains.drop L)
    let ls := l0 :: wilderStream L l0 (losses.drop L)
    List.replicate L none ++ List.zipWith (fun g l => some (rsiVal g l)) gs ls

/-- Modelled from the spec: `pandas_ta.sma` (not under src/).  Simple
moving average of the input over a window of `L` values; the first
L - 1 positions are undefined, and an output position is defined only
when a full window of history exists. -/
def pta_sma (L : ℕ) (xs : List ℚ) : List (Option ℚ) :=
  (List.range xs.length).map (fun i =>
    if L ≤ i + 1 ∧ 0 < L then some ((((xs.take (i + 1)).drop (i + 1 - L)).sum) / L)
    else none)

/-- Running exponential smoothing with weight `a` on the new value. -/
def emaStream (a prev : ℚ) : List ℚ → List ℚ
  | [] => []
  | x :: xs => (a * x + (1 - a) * prev) :: emaStream a (a * x + (1 - a) * prev) xs

/-- Modelled from the spec: `pandas_ta.ema` (not under src/).
Exponential moving average: recursively weighted with
alpha = 2/(L+1), seeded with the simple average of the first `L`
values; the first L - 1 positions are undefined. -/
def pta_ema (L : ℕ) (xs : List ℚ) : List (Option ℚ) :=
  if xs.length < L ∨ L = 0 then List.replicate xs.length none
  else
    let seed := (xs.take L).sum / L
    List.replicate (L - 1) none ++
      (seed :: emaStream (2 / (L + 1)) seed (xs.drop L)).map some

/-- Pointwise difference of two derived series, defined where both
operands are defined. -/
def optSub (a b : Option ℚ) : Option ℚ :=
  match a, b with
  | some x, some y => some (x - y)
  | _, _ => none

/-- Modelled from the spec: `pandas_ta.macd` (not under src/), as the
spec describes the triple: MACD line = EMA(12) - EMA(26) of Close,
Signal line = EMA(9) of the MACD line (over its defined values,
undefined positions padded), Histogram = MACD - Signal. -/
def pta_macd (closes : List ℚ) :
    List (Option ℚ) × List (Option ℚ) × List (Option ℚ) :=
  let macdLine := List.zipWith optSub (pta_ema 12 closes) (pta_ema 26 closes)
  let definedPart := macdLine.filterMap id
  let signalLine :=
    List.replicate (macdLine.length - definedPart.length) none ++ pta_ema 9 definedPart
  let histLine := List.zipWith optSub macdLine signalLine
  (macdLine, signalLine, histLine)

/-- The three columns the repository `MACD` function assigns before
windowing (src/utils/plotly_figure.py:157-165): df.MACD, df.Signal and
df.Hist, taken from the macd output on the Close column. -/
def MACDcols (df : List Bar) :
    List (Option ℚ) × List (Option ℚ) × List (Option ℚ) :=
  pta_macd (df.map Bar.close)

/-- The SMA column the repository `Moving_average` function assigns
before windowing (src/utils/plotly_figure.py:148): sma of Close over
the caller-supplied period. -/
def SMAcol (df : List Bar) (ma_period : ℕ) : List (Option ℚ) :=
  pta_sma ma_period (df.map Bar.close)

/-- The RSI column the repository `RSI` function computes on the full
input before any windowing (src/utils/plotly_figure.py:134):
rsi of the Close column with length 14. -/
def chartRSIColumn (df : List Bar) : List (Option ℚ) :=
  pta_rsi 14 (df.map Bar.close)

/-- Result of the repository `RSI` function: either the raw RSI series
(return_series=True) or the windowed rows paired with their RSI values
for charting. -/
inductive RSIOutput where
  | series (s : List (Option ℚ))
  | chart (rows : List (Bar × Option ℚ))
deriving DecidableEq

/-- The series carried by an `RSIOutput`, empty for a chart result. -/
def RSIOutput.seriesD : RSIOutput → List (Option ℚ)
  | .series s => s
  | .chart _ => []

/-- Embedding of the repository `RSI` function
(src/utils/plotly_figure.py:132-144): compute the RSI(14) column on
the full input; if return_series, hand back that column; otherwise
window the rows by the tag and chart them. -/
def RSI (df : List Bar) (num_period : String) (return_series : Bool) : RSIOutput :=
  let rsiCol := chartRSIColumn df
  if return_series then .series rsiCol
  else
    match df with
    | [] => .chart []
    | b0 :: rest =>
      let latest := ((b0 :: rest).getLast (List.cons_ne_nil b0 rest)).date
      let cutoff := filterCutoff b0.date latest num_period
      .chart (((b0 :: rest).zip rsiCol).filter (fun p => dlt cutoff p.1.date))

/-- Last defined value of a derived series: the last position holding a
number rather than undefined. -/
def lastDefined (s : List (Option ℚ)) : Option ℚ :=
  (s.filterMap id).getLast?

/-- The current RSI the alert block reads
(src/StockAnalysis.py:190-191): the last entry of the series returned
by `RSI` with return_series=True. -/
def currentRSI (df : List Bar) (plot_period : String) : Option ℚ :=
  ((RSI df plot_period true).seriesD.getLast?).bind id

/-- The RSI alert condition (src/StockAnalysis.py:195): fires when the
threshold is positive, the current RSI is defined, and the current RSI
is at most the threshold. -/
def rsiAlertTriggers (rsi_alert : ℚ) (current : Option ℚ) : Bool :=
  decide (0 < rsi_alert) &&
    (match current with
     | some r => decide (r ≤ rsi_alert)
     | none => false)

/-- The positive lexicon of `sentiment_and_score`
(src/StockAnalysis.py:210). -/
def pos_words : List String :=
  ["gain", "beat", "up", "strong", "positive", "record", "surge",
   "growth", "raise", "outperform", "upgrade", "profit"]

/-- The negative lexicon of `sentiment_and_score`
(src/StockAnalysis.py:211); the duplicated "loss" of the Python set
literal collapses, leaving twelve words. -/
def neg_words : List String :=
  ["drop", "fall", "loss", "miss", "down", "weak", "decline",
   "warning", "cut", "recall", "lawsuit", "downgrade"]

/-- Does the first character list start the second? -/
def startsList : List Char → List Char → Bool
  | [], _ => true
  | _ :: _, [] => false
  | a :: as, b :: bs => a == b && startsList as bs

/-- Does the first character list occur contiguously inside the
second, as the Python `in` operator on strings? -/
def occursIn (w : List Char) : List Char → Bool
  | [] => w.isEmpty
  | b :: bs => startsList w (b :: bs) || occursIn w bs

/-- Case-insensitive substring test: does the word occur inside the
lowercased text? -/
def wordInText (t : List Char) (w : String) : Bool :=
  occursIn w.data t

/-- Embedding of `sentiment_and_score` (src/StockAnalysis.py:209-222):
lowercase the text, count positive and negative lexicon words occurring
as substrings, score is the difference, label by the sign of the
score. -/
def sentiment_and_score (text : String) : String × ℤ :=
  let t := text.data.map Char.toLower
  let pos : ℤ := pos_words.countP (wordInText t)
  let neg : ℤ := neg_words.countP (wordInText t)
  let score := pos - neg
  (if 0 < score then "Positive" else if score < 0 then "Negative" else "Neutral",
   score)

/-- Spec-side positive-word count: positive lexicon words occurring
case-insensitively as substrings of the text. -/
def posCount (text : String) : ℕ :=
  pos_words.countP (wordInText (text.data.map Char.toLower))

/-- Spec-side negative-word count: negative lexicon words occurring
case-insensitively as substrings of the text. -/
def negCount (text : String) : ℕ :=
  neg_words.countP (wordInText (text.data.map Char.toLower))

/-- The cutoff `filter_data` uses for a given series and window tag. -/
def windowCutoff (df : List Bar) (w : String) : Date :=
  match df with
  | [] => ⟨0, 1, 1⟩
  | b0 :: rest =>
    filterCutoff b0.date ((b0 :: rest).getLast (List.cons_ne_nil b0 rest)).date w

/-- A constant-price bar on day `d` of January 2020, for concrete
witnesses. -/
def mkBar (dy : Int) (c : ℚ) : Bar :=
  ⟨⟨2020, 1, dy⟩, c, c, c, c, 1⟩

/-- Twenty bars with Close strictly increasing by 1 each day starting
at 100: the scenario series of the spec. -/
def df20 : List Bar :=
  (List.range 20).map (fun i => mkBar (i + 1) (100 + i))

/-- Fifteen bars with strictly increasing Close, enough history for one
defined RSI value. -/
def df15 : List Bar :=
  (List.range 15).map (fun i => mkBar (i + 1) (100 + i))

/-- Thirty-four constant-price bars, enough history for a defined MACD
histogram value. -/
def df34 : List Bar :=
  (List.range 34).map (fun i => mkBar (i + 1) 100)

/-- Two-bar series used to exhibit the behaviour of the max window. -/
def df2 : List Bar := [mkBar 1 10, mkBar 2 11]

lemma dlt_irrefl (a : Date) : dlt a a = false := by
  simp [dlt]

lemma dlt_of_dle_of_dlt {a b c : Date} (h1 : dle a b = true) (h2 : dlt b c = true) :
    dlt a c = true := by
  simp only [dle, dlt, Bool.or_eq_true, Bool.and_eq_true, beq_iff_eq,
    decide_eq_true_eq] at h1 h2 ⊢
  omega

lemma mem_zipWith {α β γ : Type} {f : α → β → γ} {c : γ} :
    ∀ {as : List α} {bs : List β}, c ∈ List.zipWith f as bs →
      ∃ a ∈ as, ∃ b ∈ bs, c = f a b
  | [], _, h => by simp at h
  | _ :: _, [], h => by simp at h
  | a :: as, b :: bs, h => by
    rcases List.mem_cons.1 h with h | h
    · exact ⟨a, List.mem_cons_self a as, b, List.mem_cons_self b bs, h⟩
    · obtain ⟨a2, ha, b2, hb, rfl⟩ := mem_zipWith h
      exact ⟨a2, List.mem_cons_of_mem a ha, b2, List.mem_cons_of_mem b hb, rfl⟩

lemma wilderStream_nonneg {L a : ℚ} (hL : 1 ≤ L) (ha : 0 ≤ a) :
    ∀ {xs : List ℚ}, (∀ x ∈ xs, 0 ≤ x) → ∀ y ∈ wilderStream L a xs, 0 ≤ y
  | [], _, y, hy => by simp [wilderStream] at hy
  | x :: xs, hxs, y, hy => by
    have hx : 0 ≤ x := hxs x (List.mem_cons_self x xs)
    have hstep : 0 ≤ ((L - 1) * a + x) / L := by
      apply div_nonneg
      · exact add_nonneg (mul_nonneg (by linarith) ha) hx
      · linarith
    rcases List.mem_cons.1 hy with rfl | hy
    · exact hstep
    · exact wilderStream_nonneg hL hstep
        (fun z hz => hxs z (List.mem_cons_of_mem x hz)) y hy

lemma rsiVal_bounds {g l : ℚ} (hg : 0 ≤ g) (hl : 0 ≤ l) :
    0 ≤ rsiVal g l ∧ rsiVal g l ≤ 100 := by
  unfold rsiVal
  by_cases h : l = 0
  · simp [h]
  · have hl2 : 0 < l := lt_of_le_of_ne hl (Ne.symm h)
    have hq : 0 ≤ g / l := div_nonneg hg hl2.le
    have hd : (1 : ℚ) ≤ 1 + g / l := by linarith
    have hpos : 0 < 100 / (1 + g / l) := by positivity
    have hle : 100 / (1 + g / l) ≤ 100 := by
      calc 100 / (1 + g / l) ≤ 100 / 1 := by
            apply div_le_div_of_nonneg_left (by norm_num) (by norm_num) hd
        _ = 100 := by norm_num
    rw [if_neg h]
    constructor <;> linarith

lemma lastDefined_of_getLast {s : List (Option ℚ)} {v : ℚ}
    (h : s.getLast? = some (some v)) : lastDefined s = some v := by
  unfold lastDefined
  rw [← List.head?_reverse] at h
  rw [← List.head?_reverse, ← List.filterMap_reverse]
  rcases hr : s.reverse with _ | ⟨a, t⟩
  · rw [hr] at h; simp at h
  · rw [hr] at h
    simp only [List.head?_cons, Option.some_inj] at h
    subst h
    simp [List.filterMap_cons]

/-- Claim C1: for every PriceSeries and window tag, the RSI value the
alert reads (the last value of the series returned by `RSI` with
return_series=True) equals the last defined value of the RSI(14)
column computed for charting on the same input with the same length
parameter. -/
theorem rsi_alert_matches_chart (df : List Bar) (p : String) (v : ℚ)
    (h : currentRSI df p = some v) :
    lastDefined (chartRSIColumn df) = some v := by
  have hser : (RSI df p true).seriesD = chartRSIColumn df := rfl
  unfold currentRSI at h
  rw [hser] at h
  rcases hl : (chartRSIColumn df).getLast? with _ | o
  · rw [hl] at h; simp at h
  · rw [hl] at h
    cases o with
    | none => simp at h
    | some w =>
      have hwv : w = v := by simpa using h
      subst hwv
      exact lastDefined_of_getLast hl

set_option maxRecDepth 40000 in
/-- Witness for C1 at a concrete 15-bar strictly increasing series:
the alert reads RSI 100 and the chart column's last defined value is
100. -/
theorem rsi_alert_matches_chart_witness :
    lastDefined (chartRSIColumn df15) = some 100 :=
  rsi_alert_matches_chart df15 "1y" 100 (by with_unfolding_all rfl)

/-- Claim C10: with return_series=True the repository `RSI` function
ignores the window tag: any two tags give the same result, and that
result is the RSI(14) series of the full unwindowed Close column. -/
theorem rsi_series_window_independent (df : List Bar) (p q : String) :
    RSI df p true = RSI df q true ∧
    RSI df p true = RSIOutput.series (pta_rsi 14 (df.map Bar.close)) :=
  ⟨rfl, rfl⟩

/-- Claim C9: the sentiment score is the count of positive lexicon
substrings minus the count of negative lexicon substrings, labelled by
its sign, and the three concrete examples score as the spec states. -/
theorem sentiment_score_spec :
    (∀ text : String,
      sentiment_and_score text =
        (if 0 < (posCount text : ℤ) - (negCount text : ℤ) then "Positive"
         else if (posCount text : ℤ) - (negCount text : ℤ) < 0 then "Negative"
         else "Neutral",
         (posCount text : ℤ) - (negCount text : ℤ))) ∧
    sentiment_and_score "strong growth" = ("Positive", 2) ∧
    sentiment_and_score "recall lawsuit" = ("Negative", -2) ∧
    sentiment_and_score "the stock moved" = ("Neutral", 0) :=
  ⟨fun _ => rfl, by with_unfolding_all rfl, by with_unfolding_all rfl,
    by with_unfolding_all rfl⟩

set_option maxRecDepth 40000 in
/-- Claim C6: on the 20-bar series whose Close rises by 1 each day
from 100, the final RSI(14) is 100, so an RSI alert with threshold 50
does not fire while threshold 100 does. -/
theorem rsi_scenario_alert :
    currentRSI df20 "1y" = some 100 ∧
    rsiAlertTriggers 50 (currentRSI df20 "1y") = false ∧
    rsiAlertTriggers 100 (currentRSI df20 "1y") = true := by
  refine ⟨by with_unfolding_all rfl, by with_unfolding_all rfl,
    by with_unfolding_all rfl⟩

set_option maxRecDepth 40000 in
/-- Counterexample to claim C2: on a two-bar series, filtering with the
max window tag does not return the full series — the strict comparison
against the earliest date drops the first bar. -/
theorem filter_max_not_full_cx : filter_data df2 "max" ≠ df2 := by
  with_unfolding_all decide

/-- Claim C2 as amended: for a non-empty PriceSeries with strictly
increasing dates, filtering with any tag outside the six dated windows
(max, custom/empty, or unrecognized) returns every bar except the
earliest one — the cutoff is the earliest date and bars must be
strictly later than it. -/
theorem filter_max_amended (b0 : Bar) (rest : List Bar) (w : String)
    (hw : w ∉ (["1mo", "5d", "6mo", "1y", "5y", "ytd"] : List String))
    (hmono : datesStrictMono (b0 :: rest)) :
    filter_data (b0 :: rest) w = rest := by
  simp only [List.mem_cons, List.not_mem_nil, or_false] at hw
  push_neg at hw
  obtain ⟨h1, h2, h3, h4, h5, h6⟩ := hw
  have hcut : filterCutoff b0.date
      ((b0 :: rest).getLast (List.cons_ne_nil b0 rest)).date w = b0.date := by
    simp [filterCutoff, h1, h2, h3, h4, h5, h6, ite_self]
  show (b0 :: rest).filter
      (fun b => dlt (filterCutoff b0.date
        ((b0 :: rest).getLast (List.cons_ne_nil b0 rest)).date w) b.date) = rest
  rw [hcut]
  rw [List.filter_cons]
  rw [dlt_irrefl b0.date]
  simp only [Bool.false_eq_true, if_false]
  apply List.filter_eq_self.2
  intro b hb
  exact (List.pairwise_cons.1 hmono).1 b hb

/-- Witness for the amended C2 on a concrete two-bar series: the
result is the series minus its first bar. -/
theorem filter_max_amended_witness :
    filter_data [mkBar 1 10, mkBar 2 11] "max" = [mkBar 2 11] :=
  filter_max_amended (mkBar 1 10) [mkBar 2 11] "max" (by decide)
    (by unfold datesStrictMono; with_unfolding_all decide)

/-- Claim C3: for every non-empty PriceSeries and dated window tag, the
filter result is exactly the bars strictly later than the cutoff the
spec prescribes for that tag, anchored at the latest date in the
series. -/
theorem filter_dated_matches_spec (df : List Bar) (h : df ≠ []) (w : String)
    (hw : w ∈ (["5d", "1mo", "6mo", "1y", "5y", "ytd"] : List String)) :
    filter_data df w = df.filter (fun b => dlt (cutoffSpec df w) b.date) := by
  cases df with
  | nil => exact absurd rfl h
  | cons b0 rest =>
    simp only [List.mem_cons, List.not_mem_nil, or_false] at hw
    rcases hw with rfl | rfl | rfl | rfl | rfl | rfl <;> rfl

/-- Witness for C3 at a concrete two-bar series with the 5-day tag. -/
theorem filter_dated_matches_spec_witness :
    filter_data df2 "5d" =
      df2.filter (fun b => dlt (cutoffSpec df2 "5d") b.date) :=
  filter_dated_matches_spec df2 (by decide) "5d" (by decide)

/-- Claim C7: for a non-empty PriceSeries, if window W1 has a cutoff at
or after the cutoff of window W2, then filtering with W1 gives a
subsequence of filtering with W2. -/
theorem filter_window_monotone (df : List Bar) (h : df ≠ []) (w1 w2 : String)
    (hc : dle (windowCutoff df w2) (windowCutoff df w1) = true) :
    (filter_data df w1).Sublist (filter_data df w2) := by
  cases df with
  | nil => exact absurd rfl h
  | cons b0 rest =>
    have e1 : filter_data (b0 :: rest) w1 =
        (b0 :: rest).filter (fun b => dlt (windowCutoff (b0 :: rest) w1) b.date) := rfl
    have e2 : filter_data (b0 :: rest) w2 =
        (b0 :: rest).filter (fun b => dlt (windowCutoff (b0 :: rest) w2) b.date) := rfl
    rw [e1, e2]
    apply List.monotone_filter_right
    intro a ha
    exact dlt_of_dle_of_dlt hc ha

/-- Witness for C7 at a concrete series: the max window cutoff is at or
after the 5-day cutoff, and the max filtering is a subsequence of the
5-day filtering. -/
theorem filter_window_monotone_witness :
    (filter_data df2 "max").Sublist (filter_data df2 "5d") :=
  filter_window_monotone df2 (by decide) "max" "5d" (by with_unfolding_all decide)

/-- Claim C8: when the period exceeds the number of bars, the SMA
column computed by Moving_average is undefined at every position; the
computation is total and never raises. -/
theorem sma_insufficient_all_undefined (df : List Bar) (L : ℕ)
    (h : df.length < L) :
    SMAcol df L = List.replicate df.length none := by
  unfold SMAcol pta_sma
  rw [List.length_map]
  refine List.eq_replicate_iff.2 ⟨by simp, ?_⟩
  intro b hb
  obtain ⟨i, hi, rfl⟩ := List.mem_map.1 hb
  have hilt : i < df.length := List.mem_range.1 hi
  rw [if_neg]
  rintro ⟨h1, _⟩
  omega

/-- Witness for C8: period 5 on a two-bar series gives a fully
undefined column. -/
theorem sma_insufficient_all_undefined_witness :
    SMAcol [mkBar 1 10, mkBar 2 11] 5 = List.replicate 2 none :=
  sma_insufficient_all_undefined [mkBar 1 10, mkBar 2 11] 5 (by decide)

/-- Claim C4: wherever the Hist, MACD and Signal outputs of the MACD
function are all defined, Hist equals MACD minus Signal. -/
theorem macd_hist_identity (df : List Bar) (i : ℕ) (m s h : ℚ)
    (hm : (MACDcols df).1.get? i = some (some m))
    (hs : (MACDcols df).2.1.get? i = some (some s))
    (hh : (MACDcols df).2.2.get? i = some (some h)) :
    h = m - s := by
  have key : (MACDcols df).2.2 =
      List.zipWith optSub (MACDcols df).1 (MACDcols df).2.1 := rfl
  rw [key, List.get?_zipWith_eq_some] at hh
  obtain ⟨a, b, ha, hb, hab⟩ := hh
  have haa : a = some m := by
    have := ha.symm.trans hm
    exact Option.some.inj this
  have hbb : b = some s := by
    have := hb.symm.trans hs
    exact Option.some.inj this
  subst haa hbb
  have : some (m - s) = some h := hab
  exact (Option.some.inj this).symm

set_option maxRecDepth 100000 in
/-- Witness for C4 on 34 constant-price bars: at the last index all
three outputs are 0 and the identity holds. -/
theorem macd_hist_identity_witness : (0 : ℚ) = 0 - 0 :=
  macd_hist_identity df34 33 0 0 0 (by with_unfolding_all rfl)
    (by with_unfolding_all rfl) (by with_unfolding_all rfl)

/-- Claim C5: on a series with at least 15 bars, every defined value of
the RSI(14) series lies in the closed interval from 0 to 100. -/
theorem rsi_bounds (closes : List ℚ) (h : 15 ≤ closes.length) (i : ℕ) (v : ℚ)
    (hv : (pta_rsi 14 closes).get? i = some (some v)) :
    0 ≤ v ∧ v ≤ 100 := by
  have hmem : some v ∈ pta_rsi 14 closes := List.get?_mem hv
  have hcond : ¬(closes.length ≤ 14 ∨ 14 = 0) := by omega
  unfold pta_rsi at hmem
  rw [if_neg hcond] at hmem
  simp only [List.mem_append] at hmem
  rcases hmem with hrep | hmem
  · exact absurd (List.eq_of_mem_replicate hrep) (by simp)
  · obtain ⟨g, hg, l, hl, heq⟩ := mem_zipWith hmem
    obtain rfl : v = rsiVal g l := Option.some.inj heq
    have hgain : ∀ x ∈ (List.zipWith (fun b a => b - a) closes.tail closes).map
        (fun d => max d 0), (0 : ℚ) ≤ x := by
      intro x hx
      obtain ⟨d, _, rfl⟩ := List.mem_map.1 hx
      exact le_max_right d 0
    have hloss : ∀ x ∈ (List.zipWith (fun b a => b - a) closes.tail closes).map
        (fun d => max (-d) 0), (0 : ℚ) ≤ x := by
      intro x hx
      obtain ⟨d, _, rfl⟩ := List.mem_map.1 hx
      exact le_max_right (-d) 0
    have hL : (1 : ℚ) ≤ (14 : ℕ) := by norm_num
    have hg0 : (0 : ℚ) ≤ (((List.zipWith (fun b a => b - a) closes.tail closes).map
        (fun d => max d 0)).take 14).sum / (14 : ℕ) := by
      apply div_nonneg
      · exact List.sum_nonneg fun x hx => hgain x (List.take_subset _ _ hx)
      · norm_num
    have hl0 : (0 : ℚ) ≤ (((List.zipWith (fun b a => b - a) closes.tail closes).map
        (fun d => max (-d) 0)).take 14).sum / (14 : ℕ) := by
      apply div_nonneg
      · exact List.sum_nonneg fun x hx => hloss x (List.take_subset _ _ hx)
      · norm_num
    have hgnn : (0 : ℚ) ≤ g := by
      rcases List.mem_cons.1 hg with rfl | hgs
      · exact hg0
      · exact wilderStream_nonneg hL hg0
          (fun x hx => hgain x (List.drop_subset _ _ hx)) g hgs
    have hlnn : (0 : ℚ) ≤ l := by
      rcases List.mem_cons.1 hl with rfl | hls
      · exact hl0
      · exact wilderStream_nonneg hL hl0
          (fun x hx => hloss x (List.drop_subset _ _ hx)) l hls
    exact rsiVal_bounds hgnn hlnn

set_option maxRecDepth 40000 in
/-- Witness for C5 on a 15-bar strictly increasing series: the single
defined RSI value is 100, inside the bounds. -/
theorem rsi_bounds_witness : (0 : ℚ) ≤ 100 ∧ (100 : ℚ) ≤ 100 :=
  rsi_bounds (df15.map Bar.close) (by with_unfolding_all decide) 14 100
    (by with_unfolding_all rfl)
